import Mathlib

/-!
Shallow embedding of the UAV geometric controller
(`src/mmuav_control/src/UavGeometryControl.cpp`) and proofs about its
control-law computations.  Eigen `Matrix<double,3,1>` / `Matrix<double,3,3>`
/ `Matrix<double,4,1>` / `Matrix<double,4,4>` values are embedded as
records over a linear ordered field `K` (instantiated with `ℝ` in the
claims, with `ℚ` in concrete witnesses); the fallible tracker computations
(which throw `std::runtime_error` in C++) are embedded as `Except String`
values.  Square roots taken by the code (`Eigen .norm()`, the rotor
actuator law) are passed in as an explicit function, instantiated with
`Real.sqrt` over `ℝ`.
-/

namespace UavGeom

variable (K : Type) [LinearOrderedField K]

/-- A 3-vector, standing for Eigen `Matrix<double,3,1>`. -/
structure Vec3 where
  x : K
  y : K
  z : K

/-- A 3x3 matrix, standing for Eigen `Matrix<double,3,3>`;
entry `mij` is row `i`, column `j`. -/
structure Mat3 where
  m00 : K
  m01 : K
  m02 : K
  m10 : K
  m11 : K
  m12 : K
  m20 : K
  m21 : K
  m22 : K

/-- A 4-vector, standing for Eigen `Matrix<double,4,1>`. -/
structure Vec4 where
  a : K
  b : K
  c : K
  d : K

/-- A 4x4 matrix, standing for Eigen `Matrix<double,4,4>`. -/
structure Mat4 where
  m00 : K
  m01 : K
  m02 : K
  m03 : K
  m10 : K
  m11 : K
  m12 : K
  m13 : K
  m20 : K
  m21 : K
  m22 : K
  m23 : K
  m30 : K
  m31 : K
  m32 : K
  m33 : K

variable {K}

def Vec3.add (u v : Vec3 K) : Vec3 K := ⟨u.x + v.x, u.y + v.y, u.z + v.z⟩

def Vec3.sub (u v : Vec3 K) : Vec3 K := ⟨u.x - v.x, u.y - v.y, u.z - v.z⟩

def Vec3.neg (v : Vec3 K) : Vec3 K := ⟨-v.x, -v.y, -v.z⟩

def Vec3.smul (c : K) (v : Vec3 K) : Vec3 K := ⟨c * v.x, c * v.y, c * v.z⟩

def Vec3.divScalar (v : Vec3 K) (c : K) : Vec3 K := ⟨v.x / c, v.y / c, v.z / c⟩

def Vec3.dot (u v : Vec3 K) : K := u.x * v.x + u.y * v.y + u.z * v.z

def Vec3.cross (u v : Vec3 K) : Vec3 K :=
  ⟨u.y * v.z - u.z * v.y, u.z * v.x - u.x * v.z, u.x * v.y - u.y * v.x⟩

def Vec3.zero : Vec3 K := ⟨0, 0, 0⟩

/-- The constant basis vector `E3 = (0, 0, 1)` from the source. -/
def E3 : Vec3 K := ⟨0, 0, 1⟩

def Mat3.mulVec (m : Mat3 K) (v : Vec3 K) : Vec3 K :=
  ⟨m.m00 * v.x + m.m01 * v.y + m.m02 * v.z,
   m.m10 * v.x + m.m11 * v.y + m.m12 * v.z,
   m.m20 * v.x + m.m21 * v.y + m.m22 * v.z⟩

def Mat3.mul (p q : Mat3 K) : Mat3 K :=
  ⟨p.m00 * q.m00 + p.m01 * q.m10 + p.m02 * q.m20,
   p.m00 * q.m01 + p.m01 * q.m11 + p.m02 * q.m21,
   p.m00 * q.m02 + p.m01 * q.m12 + p.m02 * q.m22,
   p.m10 * q.m00 + p.m11 * q.m10 + p.m12 * q.m20,
   p.m10 * q.m01 + p.m11 * q.m11 + p.m12 * q.m21,
   p.m10 * q.m02 + p.m11 * q.m12 + p.m12 * q.m22,
   p.m20 * q.m00 + p.m21 * q.m10 + p.m22 * q.m20,
   p.m20 * q.m01 + p.m21 * q.m11 + p.m22 * q.m21,
   p.m20 * q.m02 + p.m21 * q.m12 + p.m22 * q.m22⟩

def Mat3.add (p q : Mat3 K) : Mat3 K :=
  ⟨p.m00 + q.m00, p.m01 + q.m01, p.m02 + q.m02,
   p.m10 + q.m10, p.m11 + q.m11, p.m12 + q.m12,
   p.m20 + q.m20, p.m21 + q.m21, p.m22 + q.m22⟩

def Mat3.sub (p q : Mat3 K) : Mat3 K :=
  ⟨p.m00 - q.m00, p.m01 - q.m01, p.m02 - q.m02,
   p.m10 - q.m10, p.m11 - q.m11, p.m12 - q.m12,
   p.m20 - q.m20, p.m21 - q.m21, p.m22 - q.m22⟩

def Mat3.neg (p : Mat3 K) : Mat3 K :=
  ⟨-p.m00, -p.m01, -p.m02, -p.m10, -p.m11, -p.m12, -p.m20, -p.m21, -p.m22⟩

def Mat3.divScalar (p : Mat3 K) (c : K) : Mat3 K :=
  ⟨p.m00 / c, p.m01 / c, p.m02 / c,
   p.m10 / c, p.m11 / c, p.m12 / c,
   p.m20 / c, p.m21 / c, p.m22 / c⟩

/-- Eigen `.adjoint()` on a real matrix: the transpose. -/
def Mat3.adjointM (p : Mat3 K) : Mat3 K :=
  ⟨p.m00, p.m10, p.m20, p.m01, p.m11, p.m21, p.m02, p.m12, p.m22⟩

/-- The identity matrix `EYE3` from the source. -/
def EYE3 : Mat3 K := ⟨1, 0, 0, 0, 1, 0, 0, 0, 1⟩

def Mat3.zero : Mat3 K := ⟨0, 0, 0, 0, 0, 0, 0, 0, 0⟩

def Mat4.mulVec (m : Mat4 K) (v : Vec4 K) : Vec4 K :=
  ⟨m.m00 * v.a + m.m01 * v.b + m.m02 * v.c + m.m03 * v.d,
   m.m10 * v.a + m.m11 * v.b + m.m12 * v.c + m.m13 * v.d,
   m.m20 * v.a + m.m21 * v.b + m.m22 * v.c + m.m23 * v.d,
   m.m30 * v.a + m.m31 * v.b + m.m32 * v.c + m.m33 * v.d⟩

def Mat4.mul (p q : Mat4 K) : Mat4 K :=
  ⟨p.m00 * q.m00 + p.m01 * q.m10 + p.m02 * q.m20 + p.m03 * q.m30,
   p.m00 * q.m01 + p.m01 * q.m11 + p.m02 * q.m21 + p.m03 * q.m31,
   p.m00 * q.m02 + p.m01 * q.m12 + p.m02 * q.m22 + p.m03 * q.m32,
   p.m00 * q.m03 + p.m01 * q.m13 + p.m02 * q.m23 + p.m03 * q.m33,
   p.m10 * q.m00 + p.m11 * q.m10 + p.m12 * q.m20 + p.m13 * q.m30,
   p.m10 * q.m01 + p.m11 * q.m11 + p.m12 * q.m21 + p.m13 * q.m31,
   p.m10 * q.m02 + p.m11 * q.m12 + p.m12 * q.m22 + p.m13 * q.m32,
   p.m10 * q.m03 + p.m11 * q.m13 + p.m12 * q.m23 + p.m13 * q.m33,
   p.m20 * q.m00 + p.m21 * q.m10 + p.m22 * q.m20 + p.m23 * q.m30,
   p.m20 * q.m01 + p.m21 * q.m11 + p.m22 * q.m21 + p.m23 * q.m31,
   p.m20 * q.m02 + p.m21 * q.m12 + p.m22 * q.m22 + p.m23 * q.m32,
   p.m20 * q.m03 + p.m21 * q.m13 + p.m22 * q.m23 + p.m23 * q.m33,
   p.m30 * q.m00 + p.m31 * q.m10 + p.m32 * q.m20 + p.m33 * q.m30,
   p.m30 * q.m01 + p.m31 * q.m11 + p.m32 * q.m21 + p.m33 * q.m31,
   p.m30 * q.m02 + p.m31 * q.m12 + p.m32 * q.m22 + p.m33 * q.m32,
   p.m30 * q.m03 + p.m31 * q.m13 + p.m32 * q.m23 + p.m33 * q.m33⟩

/-- The matrix `EYE4` from the source: zeroed, then `(0,0) = 1` and
`(3,3) = 1`.  Right-multiplying the full thrust transform by it zeroes the
roll and pitch columns (`THRUST_TRANSFORM_YAW = THRUST_TRANSFORM_FULL * EYE4`). -/
def EYE4 : Mat4 K := ⟨1, 0, 0, 0, 0, 0, 0, 0, 0, 0, 0, 0, 0, 0, 0, 1⟩

/-- Control-mode constant `POSITION_CONTROL = 1` from the source. -/
def POSITION_CONTROL : ℤ := 1

/-- Control-mode constant `ATTITUDE_CONTROL = 2` from the source. -/
def ATTITUDE_CONTROL : ℤ := 2

/-- Control-mode constant `VELOCITY_CONTROL = 3` from the source. -/
def VELOCITY_CONTROL : ℤ := 3

/-- Modelled from the spec: `nonlinear_filters::saturation` from the
repository header `NonlinearFilters.hpp` (not under `src/`); the spec
describes it as the clamp of `x` to `[lo, hi]`, idempotent, with
`lo ≤ result ≤ hi`. -/
def saturation (x lo hi : K) : K :=
  if x > hi then hi else if x < lo then lo else x

/-- Eigen `.array().sign()` componentwise sign of a (non-NaN) value. -/
def sgn (x : K) : K := if x > 0 then 1 else if x < 0 then -1 else 0

/-- The hat (skew) operator.  `geom_helper::hatOperator` is declared in a
header not under `src/`, but the repository's earlier controller revision
(in `src/unnamed/part_001`) defines `hatOperator` exactly like this. -/
def hatOperator (x y z : K) : Mat3 K :=
  ⟨0, -z, y, z, 0, -x, -y, x, 0⟩

/-- Modelled from the spec: `geom_helper::veeOperator` from the repository
header `GeometricHelper.hpp` (not under `src/`); the spec describes it as
the left inverse of the hat operator, extracting `(x, y, z)` from the skew
entries of its argument. -/
def veeOperator (m : Mat3 K) : Vec3 K := ⟨m.m21, m.m02, m.m10⟩

/-- Euclidean norm via an explicit square-root function (Eigen `.norm()`;
instantiated with `Real.sqrt` over `ℝ`). -/
def vecNorm (sqrtFn : K → K) (v : Vec3 K) : K := sqrtFn (v.dot v)

/-- Modelled from the spec: `geom_helper::euler2RotationMatrix` from the
repository header `GeometricHelper.hpp` (not under `src/`); the spec
describes it as the standard roll-pitch-yaw (Z-Y-X) Euler-angle to
rotation-matrix conversion.  `sinFn`/`cosFn` stand for the trigonometric
functions (instantiated with `Real.sin`/`Real.cos` over `ℝ`). -/
def euler2RotationMatrix (sinFn cosFn : K → K) (roll pitch yaw : K) : Mat3 K :=
  let sx := sinFn roll
  let cx := cosFn roll
  let sy := sinFn pitch
  let cy := cosFn pitch
  let sz := sinFn yaw
  let cz := cosFn yaw
  ⟨cz * cy, cz * sy * sx - sz * cx, cz * sy * cx + sz * sx,
   sz * cy, sz * sy * sx + cz * cx, sz * sy * cx - cz * sx,
   -sy, cy * sx, cy * cx⟩

/-- Assemble a 3x3 matrix from three column vectors, mirroring the Eigen
comma initializer `R_c << b1_c, b2_c, b3_desired`. -/
def matFromCols (c0 c1 c2 : Vec3 K) : Mat3 K :=
  ⟨c0.x, c1.x, c2.x, c0.y, c1.y, c2.y, c0.z, c1.z, c2.z⟩

variable (K)

/-- Modelled from the spec: the physical constants defined in the
repository header `MmuavParameters.hpp` (not under `src/`): gravity `G`,
movable-mass value `MM_MASS`, payload mass `PAYLOAD_MASS`, actuator force
constants `MM_FORCE` and `PAYLOAD_FORCE`, arm length `ARM_LENGTH`, motor
force constant `MOTOR_CONSTANT` and rotor-speed bound
`MAX_ROTOR_VELOCITY`.  Their numeric values are not in `src/`, so they are
kept as parameters of the model. -/
structure Params where
  G : K
  MM_MASS : K
  PAYLOAD_MASS : K
  MM_FORCE : K
  PAYLOAD_FORCE : K
  ARM_LENGTH : K
  MOTOR_CONSTANT : K
  MAX_ROTOR_VELOCITY : K

/-- The mutable fields of class `UavGeometryControl` read or written by the
modelled member functions. -/
structure CtrlState where
  current_control_mode : ℤ
  enable_mass_control : Bool
  enable_manipulator_control : Bool
  calc_desired_flag : Bool
  param_start_flag : Bool
  uav_mass : K
  x_mv : Vec3 K
  v_mv : Vec3 K
  x_d : Vec3 K
  v_d : Vec3 K
  a_d : Vec3 K
  omega_mv : Vec3 K
  omega_d : Vec3 K
  alpha_d : Vec3 K
  euler_d : Vec3 K
  b1_d : Vec3 K
  ro_cm : Vec3 K
  R_mv : Mat3 K
  R_d : Mat3 K
  R_c_old : Mat3 K
  R_c_dot_old : Mat3 K
  mass0_mv : K
  mass1_mv : K
  mass2_mv : K
  mass3_mv : K
  gripperLeft_mv : Vec3 K
  gripperRight_mv : Vec3 K
  k_x : Mat3 K
  k_v : Mat3 K
  k_R : Mat3 K
  k_omega : Mat3 K
  inertia : Mat3 K
  mass_inertia : Mat3 K
  payload_inertia : Mat3 K

variable {K}

/-- `UavGeometryControl::calculateCenterOfMass` (lines 457-482): writes the
center-of-mass offset `ro_cm_` according to the active actuation variant. -/
def calculateCenterOfMass (p : Params K) (s : CtrlState K) : CtrlState K :=
  if s.enable_mass_control then
    { s with ro_cm :=
        ⟨(p.MM_MASS * s.mass0_mv + p.MM_MASS * (-s.mass2_mv)) / s.uav_mass,
         (p.MM_MASS * s.mass1_mv + p.MM_MASS * (-s.mass3_mv)) / s.uav_mass,
         0⟩ }
  else if s.enable_manipulator_control then
    { s with ro_cm :=
        ((Vec3.smul p.PAYLOAD_MASS s.gripperLeft_mv).add
          (Vec3.smul p.PAYLOAD_MASS s.gripperRight_mv)).divScalar s.uav_mass }
  else
    { s with ro_cm := ⟨0, 0, 0⟩ }

/-- `UavGeometryControl::calculateAdjustedInertia` (lines 756-810): copies
the base body inertia and, when a variant is active, adds offset-dependent
quadratic terms plus the attached hardware's own constant inertia terms to
the diagonal. -/
def calculateAdjustedInertia (p : Params K) (s : CtrlState K) : Mat3 K :=
  let i := s.inertia
  if s.enable_mass_control then
    { i with
        m00 := i.m00 + s.mass1_mv * s.mass1_mv * p.MM_MASS
                + s.mass3_mv * s.mass3_mv * p.MM_MASS
                + s.mass_inertia.m00,
        m11 := i.m11 + s.mass0_mv * s.mass0_mv * p.MM_MASS
                + s.mass2_mv * s.mass2_mv * p.MM_MASS
                + s.mass_inertia.m11,
        m22 := i.m22 + s.mass1_mv * s.mass1_mv * p.MM_MASS
                + s.mass3_mv * s.mass3_mv * p.MM_MASS
                + s.mass0_mv * s.mass0_mv * p.MM_MASS
                + s.mass2_mv * s.mass2_mv * p.MM_MASS
                + 4 * s.mass_inertia.m22 }
  else if s.enable_manipulator_control then
    { i with
        m00 := i.m00
                + (s.gripperLeft_mv.y * s.gripperLeft_mv.y +
                    s.gripperLeft_mv.z * s.gripperLeft_mv.z) * p.PAYLOAD_MASS
                + (s.gripperRight_mv.y * s.gripperRight_mv.y +
                    s.gripperLeft_mv.z * s.gripperRight_mv.z) * p.PAYLOAD_MASS
                + 2 * s.payload_inertia.m00,
        m11 := i.m11
                + (s.gripperLeft_mv.x * s.gripperLeft_mv.x +
                    s.gripperLeft_mv.z * s.gripperLeft_mv.z) * p.PAYLOAD_MASS * 2
                + (s.gripperRight_mv.x * s.gripperRight_mv.x +
                    s.gripperLeft_mv.z * s.gripperRight_mv.z) * p.PAYLOAD_MASS
                + 2 * s.payload_inertia.m11,
        m22 := i.m22
                + (s.gripperLeft_mv.x * s.gripperLeft_mv.x +
                    s.gripperLeft_mv.x * s.gripperLeft_mv.x) * p.PAYLOAD_MASS * 2
                + (s.gripperRight_mv.z * s.gripperRight_mv.z +
                    s.gripperLeft_mv.z * s.gripperRight_mv.z) * p.PAYLOAD_MASS
                + 2 * s.payload_inertia.m22 }
  else
    i

/-- `UavGeometryControl::calculateRotorVelocities` (lines 484-526): apply
the allocation transform to the thrust-moment vector, record componentwise
signs, take the absolute value, divide by the motor force constant, take
the square root, then reapply each sign to the saturated magnitude.
`MOTOR_CONSTANT` and `MAX_ROTOR_VELOCITY` (globals from a header not under
`src/`) are parameters. -/
def calculateRotorVelocities (sqrtFn : K → K) (MOTOR_CONSTANT MAX_ROTOR_VELOCITY : K)
    (thrust_moment_vec : Vec4 K) (transform_matrix : Mat4 K) : Vec4 K :=
  let v := transform_matrix.mulVec thrust_moment_vec
  let rotor_signs : Vec4 K := ⟨sgn v.a, sgn v.b, sgn v.c, sgn v.d⟩
  let w : Vec4 K :=
    ⟨sqrtFn (|v.a| / MOTOR_CONSTANT), sqrtFn (|v.b| / MOTOR_CONSTANT),
     sqrtFn (|v.c| / MOTOR_CONSTANT), sqrtFn (|v.d| / MOTOR_CONSTANT)⟩
  ⟨rotor_signs.a * saturation w.a (-MAX_ROTOR_VELOCITY) MAX_ROTOR_VELOCITY,
   rotor_signs.b * saturation w.b (-MAX_ROTOR_VELOCITY) MAX_ROTOR_VELOCITY,
   rotor_signs.c * saturation w.c (-MAX_ROTOR_VELOCITY) MAX_ROTOR_VELOCITY,
   rotor_signs.d * saturation w.d (-MAX_ROTOR_VELOCITY) MAX_ROTOR_VELOCITY⟩

/-- `UavGeometryControl::trajectoryTracking` (lines 528-595): computes the
position/velocity error according to the control mode (full 3-vector in
position mode, z-only in attitude mode, fatal `"Invalid control mode
given."` otherwise), the desired force `A` with optional center-of-mass
coupling, the total thrust `f_u` and the desired thrust direction `b3_d`.
Returns `(b3_d, f_u)` or the thrown error. -/
def trajectoryTracking (sqrtFn : K → K) (G : K) (s : CtrlState K)
    (pos_desired : Vec3 K) : Except String (Vec3 K × K) :=
  (if s.current_control_mode = POSITION_CONTROL then
     Except.ok (s.x_mv.sub pos_desired, s.v_mv.sub s.v_d)
   else if s.current_control_mode = ATTITUDE_CONTROL then
     Except.ok (Vec3.smul (s.x_mv.z - pos_desired.z) E3,
                Vec3.smul (s.v_mv.z - s.v_d.z) E3)
   else
     Except.error "Invalid control mode given.").bind fun ev =>
    let e_x := ev.1
    let e_v := ev.2
    let A : Vec3 K :=
      (((Vec3.neg (s.k_x.mulVec e_x)).sub (s.k_v.mulVec e_v)).add
        (Vec3.smul (s.uav_mass * G) E3)).add (Vec3.smul s.uav_mass s.a_d)
    let A : Vec3 K :=
      if s.enable_mass_control || s.enable_manipulator_control then
        let skew_omega := hatOperator s.omega_mv.x s.omega_mv.y s.omega_mv.z
        let skew_ro := hatOperator s.ro_cm.x s.ro_cm.y s.ro_cm.z
        let additionalDynamics :=
          (Vec3.neg (Vec3.smul s.uav_mass
              ((s.R_mv.mulVec s.ro_cm).cross s.alpha_d))).sub
            (Vec3.smul s.uav_mass
              (s.R_mv.mulVec (skew_omega.mulVec (skew_ro.mulVec s.omega_mv))))
        A.add additionalDynamics
      else A
    let f_u := A.dot (s.R_mv.mulVec E3)
    let b3_d := A.divScalar (vecNorm sqrtFn A)
    Except.ok (b3_d, f_u)

/-- `UavGeometryControl::attitudeTracking` (lines 640-754): constructs the
desired rotation (from `b3_d` and the prefiltered heading in position
mode, from the desired Euler angles in attitude mode, fatal `"Invalid
control mode given."` otherwise), then computes the attitude error, the
angular-velocity error and the saturated control moment.  Returns the new
`R_d_` and `M_u`.

The C++ guard `e_omega(0,0) != e_omega(0,0)` (IEEE self-inequality, true
exactly for NaN) can never trip in this field-valued embedding, where
`x ≠ x` is impossible; that guard is modelled separately on `FVal`
(`eOmegaGuardTrips`). -/
def attitudeTracking (sinFn cosFn sqrtFn : K → K) (p : Params K)
    (s : CtrlState K) (b1_desired b3_desired : Vec3 K) :
    Except String (Mat3 K × Vec3 K) :=
  (if s.current_control_mode = POSITION_CONTROL then
     let b13_normal := b3_desired.cross b1_desired
     let b1_c := (Vec3.neg (b3_desired.cross b13_normal)).divScalar
       (vecNorm sqrtFn b13_normal)
     let b2_c0 := b3_desired.cross b1_c
     let b2_c := b2_c0.divScalar (vecNorm sqrtFn b2_c0)
     Except.ok (matFromCols b1_c b2_c b3_desired)
   else if s.current_control_mode = ATTITUDE_CONTROL then
     Except.ok (euler2RotationMatrix sinFn cosFn s.euler_d.x s.euler_d.y s.euler_d.z)
   else
     Except.error "Invalid control mode given.").bind fun R_d =>
    let e_R_skew := ((R_d.adjointM.mul s.R_mv).sub (s.R_mv.adjointM.mul R_d)).divScalar 2
    let e_R := veeOperator e_R_skew
    let e_omega := s.omega_mv.sub ((s.R_mv.adjointM.mul R_d).mulVec s.omega_d)
    let omega_mv_skew := hatOperator s.omega_mv.x s.omega_mv.y s.omega_mv.z
    let adjustedInertia := calculateAdjustedInertia p s
    let additionalDynamics : Vec3 K :=
      if s.enable_manipulator_control || s.enable_mass_control then
        Vec3.smul s.uav_mass (s.ro_cm.cross (s.R_mv.adjointM.mulVec s.a_d))
      else ⟨0, 0, 0⟩
    let M_u :=
      ((((Vec3.neg (s.k_R.mulVec e_R)).sub (s.k_omega.mulVec e_omega)).add
          (s.omega_mv.cross (adjustedInertia.mulVec s.omega_mv))).sub
        (adjustedInertia.mulVec
          (((omega_mv_skew.mul s.R_mv.adjointM).mul R_d).mulVec s.omega_d |>.sub
            ((s.R_mv.adjointM.mul R_d).mulVec s.alpha_d)))).add additionalDynamics
    let M_u : Vec3 K :=
      ⟨saturation M_u.x (-5) 5, saturation M_u.y (-5) 5,
       saturation M_u.z (-(5/2)) (5/2)⟩
    Except.ok (R_d, M_u)

/-- The rotor-command part of `UavGeometryControl::publishControlInputs`
(lines 362-454): chooses the allocation transform by actuation variant
(the yaw-only transform `THRUST_TRANSFORM_FULL * EYE4` when a
center-of-mass variant is active, the full transform otherwise) and
computes the four rotor commands.  `THRUST_TRANSFORM_FULL` is initialized
from a header not under `src/`, so it is a parameter. -/
def publishControlRotor (sqrtFn : K → K) (p : Params K)
    (THRUST_TRANSFORM_FULL : Mat4 K) (s : CtrlState K)
    (f_u : K) (M_u : Vec3 K) : Vec4 K :=
  let thrust_moment_vec : Vec4 K := ⟨f_u, M_u.x, M_u.y, M_u.z⟩
  if s.enable_mass_control || s.enable_manipulator_control then
    calculateRotorVelocities sqrtFn p.MOTOR_CONSTANT p.MAX_ROTOR_VELOCITY
      thrust_moment_vec (THRUST_TRANSFORM_FULL.mul EYE4)
  else
    calculateRotorVelocities sqrtFn p.MOTOR_CONSTANT p.MAX_ROTOR_VELOCITY
      thrust_moment_vec THRUST_TRANSFORM_FULL

/-- The auxiliary lateral offsets `(dx, dy)` of
`UavGeometryControl::publishControlInputs` when the movable-mass variant is
active (lines 388-401). -/
def massLateralOffsets (p : Params K) (s : CtrlState K) (M_u : Vec3 K) : K × K :=
  let dx := M_u.y / (2 * p.MM_FORCE * E3.dot (s.R_mv.mulVec E3))
  let dy := M_u.x / (2 * p.MM_FORCE * E3.dot (s.R_mv.mulVec E3))
  (saturation dx (-(p.ARM_LENGTH / 2)) (p.ARM_LENGTH / 2),
   saturation dy (-(p.ARM_LENGTH / 2)) (p.ARM_LENGTH / 2))

/-- One control-loop tick of `UavGeometryControl::runControllerLoop` after
the rate gate and the sub-rate estimator (lines 174-197): center-of-mass
update, heading prefilter `b1_des = b1_old + 0.05 (b1_d - b1_old)`,
trajectory tracking, attitude tracking, rotor-command computation.  A
thrown `runtime_error` short-circuits the cycle: the rotor-command
computation and publication are not reached. -/
def controlCycle (sinFn cosFn sqrtFn : K → K) (p : Params K)
    (THRUST_TRANSFORM_FULL : Mat4 K) (s : CtrlState K) (b1_old : Vec3 K) :
    Except String (Vec4 K) :=
  let s1 := calculateCenterOfMass p s
  let b1_des := b1_old.add (Vec3.smul (1 / 20) (s1.b1_d.sub b1_old))
  (trajectoryTracking sqrtFn p.G s1 s1.x_d).bind fun tb =>
    (attitudeTracking sinFn cosFn sqrtFn p s1 b1_des tb.1).bind fun rm =>
      Except.ok (publishControlRotor sqrtFn p THRUST_TRANSFORM_FULL s1 tb.2 rm.2)

/-- `UavGeometryControl::calculateDesiredAngularVelAndAcc` (lines 812-842):
the sub-rate desired-rate estimator.  Returns immediately (state
unchanged) unless the sub-rate flag is up and the control mode is
position; otherwise finite-differences `R_d_` twice, writes `omega_d_` and
the saturated `alpha_d_`, stores `R_c_old_`, `R_c_dot_old_` and lowers the
flag. -/
def calculateDesiredAngularVelAndAcc (t_d : K) (s : CtrlState K) : CtrlState K :=
  if s.calc_desired_flag = false ∨ s.current_control_mode ≠ POSITION_CONTROL then s
  else
    let R_c_dot := (s.R_d.sub s.R_c_old).divScalar t_d
    let omega_c_skew := s.R_d.adjointM.mul R_c_dot
    let R_c_ddot := (R_c_dot.sub s.R_c_dot_old).divScalar t_d
    let alpha_c_skew := (omega_c_skew.mul omega_c_skew).neg.add
      (s.R_d.adjointM.mul R_c_ddot)
    let omega_d := veeOperator omega_c_skew
    let alpha_d0 := veeOperator alpha_c_skew
    let alpha_d : Vec3 K :=
      ⟨saturation alpha_d0.x (-(1/2)) (1/2),
       saturation alpha_d0.y (-(1/2)) (1/2),
       saturation alpha_d0.z (-(1/2)) (1/2)⟩
    { s with omega_d := omega_d, alpha_d := alpha_d,
             R_c_old := s.R_d, R_c_dot_old := R_c_dot,
             calc_desired_flag := false }

variable (K)

/-- The eight fields of `UavGeometryControlParamsConfig` handled by
`param_cb`. -/
structure ReconfigureConfig where
  kx_xy : K
  kx_z : K
  kv_xy : K
  kv_z : K
  kR_xy : K
  kR_z : K
  kOm_xy : K
  kOm_z : K

variable {K}

/-- `UavGeometryControl::param_cb` (lines 844-883): on the first
invocation, seed the reported configuration from the current gain values
and raise `param_start_flag_`, leaving the gains untouched; on every later
invocation, overwrite the `(0,0)`, `(1,1)` and `(2,2)` entries of the four
gain matrices from the supplied configuration.  Returns the new state and
the (possibly seeded) configuration. -/
def param_cb (cfg : ReconfigureConfig K) (s : CtrlState K) :
    CtrlState K × ReconfigureConfig K :=
  if s.param_start_flag = false then
    ({ s with param_start_flag := true },
     { kx_xy := s.k_x.m00, kx_z := s.k_x.m22,
       kv_xy := s.k_v.m00, kv_z := s.k_v.m22,
       kR_xy := s.k_R.m00, kR_z := s.k_R.m22,
       kOm_xy := s.k_omega.m00, kOm_z := s.k_omega.m22 })
  else
    ({ s with
        k_x := { s.k_x with m00 := cfg.kx_xy, m11 := cfg.kx_xy, m22 := cfg.kx_z },
        k_v := { s.k_v with m00 := cfg.kv_xy, m11 := cfg.kv_xy, m22 := cfg.kv_z },
        k_R := { s.k_R with m00 := cfg.kR_xy, m11 := cfg.kR_xy, m22 := cfg.kR_z },
        k_omega := { s.k_omega with
          m00 := cfg.kOm_xy, m11 := cfg.kOm_xy, m22 := cfg.kOm_z } },
     cfg)

/-- Extended value of an IEEE double: a finite value (embedded as a
rational), an infinity, or NaN.  Used to model the NaN guard of
`attitudeTracking`, which is invisible in the field-valued embedding. -/
inductive FVal where
  | finite : ℚ → FVal
  | posInf : FVal
  | negInf : FVal
  | nan : FVal

def FVal.isNaN : FVal → Bool
  | .nan => true
  | _ => false

def FVal.isFinite : FVal → Bool
  | .finite _ => true
  | _ => false

/-- A 3-vector of IEEE double values. -/
structure FVec3 where
  x : FVal
  y : FVal
  z : FVal

/-- The NaN guard of `UavGeometryControl::attitudeTracking` (lines
707-711) applied to an already-computed angular-velocity error: the C++
condition is `e_omega(0,0) != e_omega(0,0)`, and IEEE `!=` of a double
with itself is true exactly when that double is NaN.  Only component 0 is
inspected. -/
def eOmegaGuardTrips (e_omega : FVec3) : Bool := e_omega.x.isNaN

/-- Sample parameter valuation (all constants 1) used by concrete
witnesses; the real header values are not under `src/`. -/
def pOne : Params ℝ :=
  { G := 1, MM_MASS := 1, PAYLOAD_MASS := 1, MM_FORCE := 1, PAYLOAD_FORCE := 1,
    ARM_LENGTH := 1, MOTOR_CONSTANT := 1, MAX_ROTOR_VELOCITY := 1 }

/-- Sample controller state used by concrete witnesses: position mode, no
actuation variant, all feedback neutral, identity rotations. -/
noncomputable def baseState : CtrlState ℝ :=
  { current_control_mode := 1
    enable_mass_control := false
    enable_manipulator_control := false
    calc_desired_flag := false
    param_start_flag := false
    uav_mass := 1
    x_mv := ⟨0, 0, 0⟩, v_mv := ⟨0, 0, 0⟩
    x_d := ⟨0, 0, 0⟩, v_d := ⟨0, 0, 0⟩, a_d := ⟨0, 0, 0⟩
    omega_mv := ⟨0, 0, 0⟩, omega_d := ⟨0, 0, 0⟩, alpha_d := ⟨0, 0, 0⟩
    euler_d := ⟨0, 0, 0⟩, b1_d := ⟨1, 0, 0⟩, ro_cm := ⟨0, 0, 0⟩
    R_mv := EYE3, R_d := EYE3, R_c_old := EYE3, R_c_dot_old := Mat3.zero
    mass0_mv := 0, mass1_mv := 0, mass2_mv := 0, mass3_mv := 0
    gripperLeft_mv := ⟨0, 0, 0⟩, gripperRight_mv := ⟨0, 0, 0⟩
    k_x := EYE3, k_v := EYE3, k_R := EYE3, k_omega := EYE3
    inertia := EYE3, mass_inertia := EYE3, payload_inertia := EYE3 }

/-- Helper: `calculateCenterOfMass` writes only `ro_cm_`, so it preserves
the control mode. -/
theorem calculateCenterOfMass_mode (p : Params K) (s : CtrlState K) :
    (calculateCenterOfMass p s).current_control_mode = s.current_control_mode := by
  unfold calculateCenterOfMass
  split_ifs <;> rfl

/-- C7: in the MovableMass variant the computed center-of-mass offset is
`((μ m0 - μ m2) / m_total, (μ m1 - μ m3) / m_total, 0)`, with antipodal
pairs contributing with opposite sign, z identically 0, and all four
offsets zero giving `(0, 0, 0)`. -/
theorem c7_movable_mass_com (p : Params ℝ) (s : CtrlState ℝ)
    (h : s.enable_mass_control = true) :
    (calculateCenterOfMass p s).ro_cm =
      ⟨(p.MM_MASS * s.mass0_mv - p.MM_MASS * s.mass2_mv) / s.uav_mass,
       (p.MM_MASS * s.mass1_mv - p.MM_MASS * s.mass3_mv) / s.uav_mass, 0⟩ ∧
    (s.mass0_mv = 0 → s.mass1_mv = 0 → s.mass2_mv = 0 → s.mass3_mv = 0 →
      (calculateCenterOfMass p s).ro_cm = ⟨0, 0, 0⟩) := by
  constructor
  · simp only [calculateCenterOfMass, h, if_true]
    congr 1 <;> ring
  · intro h0 h1 h2 h3
    simp [calculateCenterOfMass, h, h0, h1, h2, h3]

/-- Concrete instantiation of `c7_movable_mass_com`. -/
theorem c7_movable_mass_com_witness :
    (calculateCenterOfMass pOne { baseState with enable_mass_control := true }).ro_cm =
      ⟨(pOne.MM_MASS * baseState.mass0_mv - pOne.MM_MASS * baseState.mass2_mv) /
          baseState.uav_mass,
       (pOne.MM_MASS * baseState.mass1_mv - pOne.MM_MASS * baseState.mass3_mv) /
          baseState.uav_mass, 0⟩ :=
  (c7_movable_mass_com pOne { baseState with enable_mass_control := true } rfl).1

/-- C8: the desired-rate estimator leaves the whole state (in particular
`omega_d_`, `alpha_d_`, `R_c_old_`, `R_c_dot_old_`) unchanged whenever the
sub-rate flag is down or the control mode is not position, and the stored
previous values change only on a successful sub-rate tick. -/
theorem c8_desired_rate_frame (t_d : ℝ) (s : CtrlState ℝ) :
    ((s.calc_desired_flag = false ∨ s.current_control_mode ≠ POSITION_CONTROL) →
      calculateDesiredAngularVelAndAcc t_d s = s) ∧
    (((calculateDesiredAngularVelAndAcc t_d s).R_c_old ≠ s.R_c_old ∨
      (calculateDesiredAngularVelAndAcc t_d s).R_c_dot_old ≠ s.R_c_dot_old) →
      s.calc_desired_flag = true ∧ s.current_control_mode = POSITION_CONTROL) := by
  constructor
  · intro h
    unfold calculateDesiredAngularVelAndAcc
    rw [if_pos h]
  · intro hch
    by_cases h : s.calc_desired_flag = false ∨ s.current_control_mode ≠ POSITION_CONTROL
    · exfalso
      have heq : calculateDesiredAngularVelAndAcc t_d s = s := by
        unfold calculateDesiredAngularVelAndAcc
        rw [if_pos h]
      rw [heq] at hch
      rcases hch with hc | hc <;> exact hc rfl
    · push_neg at h
      exact ⟨Bool.of_not_eq_false h.1, h.2⟩

/-- Concrete instantiation of `c8_desired_rate_frame`: the sample state
has the sub-rate flag down, so the estimator is the identity on it. -/
theorem c8_desired_rate_frame_witness :
    calculateDesiredAngularVelAndAcc 1 baseState = baseState :=
  (c8_desired_rate_frame 1 baseState).1 (Or.inl rfl)

/-- C9: the first invocation of the reconfigure callback leaves the state
unchanged except for raising the start flag (so all four gain matrices
keep their values) and seeds the reported configuration from the current
gains; every later invocation overwrites each gain matrix's `(0,0)` and
`(1,1)` entries with the supplied xy value and its `(2,2)` entry with the
supplied z value, leaving all off-diagonal entries untouched (so a
diagonal matrix stays diagonal, with a shared xy gain). -/
theorem c9_param_cb_seed_then_overwrite (cfg : ReconfigureConfig ℝ)
    (s : CtrlState ℝ) :
    (s.param_start_flag = false →
      (param_cb cfg s).1 = { s with param_start_flag := true } ∧
      (param_cb cfg s).2 =
        { kx_xy := s.k_x.m00, kx_z := s.k_x.m22,
          kv_xy := s.k_v.m00, kv_z := s.k_v.m22,
          kR_xy := s.k_R.m00, kR_z := s.k_R.m22,
          kOm_xy := s.k_omega.m00, kOm_z := s.k_omega.m22 }) ∧
    (s.param_start_flag = true →
      (param_cb cfg s).1 =
        { s with
            k_x := { s.k_x with m00 := cfg.kx_xy, m11 := cfg.kx_xy, m22 := cfg.kx_z },
            k_v := { s.k_v with m00 := cfg.kv_xy, m11 := cfg.kv_xy, m22 := cfg.kv_z },
            k_R := { s.k_R with m00 := cfg.kR_xy, m11 := cfg.kR_xy, m22 := cfg.kR_z },
            k_omega := { s.k_omega with
              m00 := cfg.kOm_xy, m11 := cfg.kOm_xy, m22 := cfg.kOm_z } } ∧
      (param_cb cfg s).2 = cfg) := by
  constructor
  · intro h
    constructor <;> simp [param_cb, h]
  · intro h
    constructor <;> simp [param_cb, h]

/-- Concrete instantiation of `c9_param_cb_seed_then_overwrite` at a state
with the start flag already raised. -/
theorem c9_param_cb_witness :
    (param_cb ⟨2, 3, 2, 3, 2, 3, 2, 3⟩
        { baseState with param_start_flag := true }).1.k_x =
      { baseState.k_x with m00 := 2, m11 := 2, m22 := 3 } := by
  have h := (c9_param_cb_seed_then_overwrite ⟨2, 3, 2, 3, 2, 3, 2, 3⟩
    { baseState with param_start_flag := true }).2 rfl
  rw [h.1]

/-- C1: for any control mode other than position (1) and attitude (2) —
including the declared velocity mode (3) and undeclared values such as
99 — trajectory tracking raises the fatal `"Invalid control mode given."`
error, and the control cycle short-circuits on it, producing no rotor
command. -/
theorem c1_invalid_mode_aborts_cycle (sinFn cosFn sqrtFn : ℝ → ℝ)
    (p : Params ℝ) (TF : Mat4 ℝ) (s : CtrlState ℝ) (b1_old pos_desired : Vec3 ℝ)
    (h1 : s.current_control_mode ≠ POSITION_CONTROL)
    (h2 : s.current_control_mode ≠ ATTITUDE_CONTROL) :
    trajectoryTracking sqrtFn p.G s pos_desired =
      Except.error "Invalid control mode given." ∧
    controlCycle sinFn cosFn sqrtFn p TF s b1_old =
      Except.error "Invalid control mode given." := by
  have htt : ∀ (s' : CtrlState ℝ) (pd : Vec3 ℝ),
      s'.current_control_mode = s.current_control_mode →
      trajectoryTracking sqrtFn p.G s' pd =
        Except.error "Invalid control mode given." := by
    intro s' pd hm
    unfold trajectoryTracking
    rw [hm, if_neg h1, if_neg h2]
    rfl
  refine ⟨htt s pos_desired rfl, ?_⟩
  simp only [controlCycle]
  rw [htt _ _ (calculateCenterOfMass_mode p s)]
  rfl

/-- Concrete instantiation of `c1_invalid_mode_aborts_cycle` at the
undeclared mode 99. -/
theorem c1_invalid_mode_witness :
    trajectoryTracking Real.sqrt pOne.G
        { baseState with current_control_mode := 99 } Vec3.zero =
      Except.error "Invalid control mode given." ∧
    controlCycle Real.sin Real.cos Real.sqrt pOne EYE4
        { baseState with current_control_mode := 99 } Vec3.zero =
      Except.error "Invalid control mode given." :=
  c1_invalid_mode_aborts_cycle Real.sin Real.cos Real.sqrt pOne EYE4
    { baseState with current_control_mode := 99 } Vec3.zero Vec3.zero
    (by decide) (by decide)

/-- State for the C2 counterexample: movable-mass variant active, all four
mass offsets at the neutral position 0. -/
noncomputable def c2State : CtrlState ℝ := { baseState with enable_mass_control := true }

/-- C2 counterexample: with the movable-mass variant active and all four
offsets 0, the adjusted inertia still differs from the base inertia — the
branch unconditionally adds the movable masses' own inertia terms
(`mass_inertia_` diagonals, here valued 1). -/
theorem c2_neutral_inertia_counterexample :
    c2State.enable_mass_control = true ∧
    c2State.mass0_mv = 0 ∧ c2State.mass1_mv = 0 ∧
    c2State.mass2_mv = 0 ∧ c2State.mass3_mv = 0 ∧
    (calculateAdjustedInertia pOne c2State).m00 ≠ c2State.inertia.m00 := by
  refine ⟨rfl, rfl, rfl, rfl, rfl, ?_⟩
  simp [calculateAdjustedInertia, c2State, baseState, pOne, EYE3]

/-- C2 (amended): with all CoM feedback neutral, the adjusted inertia
equals the base inertia plus the attached hardware's constant own-inertia
terms: `mass_inertia_` on xx/yy and four times it on zz for MovableMass,
twice `payload_inertia_` on each diagonal for Manipulator; with no variant
active it equals the base inertia exactly. -/
theorem c2_neutral_inertia_adds_hardware_terms (p : Params ℝ) (s : CtrlState ℝ) :
    (s.enable_mass_control = true →
      s.mass0_mv = 0 → s.mass1_mv = 0 → s.mass2_mv = 0 → s.mass3_mv = 0 →
      calculateAdjustedInertia p s =
        { s.inertia with
            m00 := s.inertia.m00 + s.mass_inertia.m00,
            m11 := s.inertia.m11 + s.mass_inertia.m11,
            m22 := s.inertia.m22 + 4 * s.mass_inertia.m22 }) ∧
    (s.enable_mass_control = false → s.enable_manipulator_control = true →
      s.gripperLeft_mv = ⟨0, 0, 0⟩ → s.gripperRight_mv = ⟨0, 0, 0⟩ →
      calculateAdjustedInertia p s =
        { s.inertia with
            m00 := s.inertia.m00 + 2 * s.payload_inertia.m00,
            m11 := s.inertia.m11 + 2 * s.payload_inertia.m11,
            m22 := s.inertia.m22 + 2 * s.payload_inertia.m22 }) ∧
    (s.enable_mass_control = false → s.enable_manipulator_control = false →
      calculateAdjustedInertia p s = s.inertia) := by
  refine ⟨?_, ?_, ?_⟩
  · intro hm h0 h1 h2 h3
    simp [calculateAdjustedInertia, hm, h0, h1, h2, h3]
  · intro hm hman hL hR
    simp [calculateAdjustedInertia, hm, hman, hL, hR]
  · intro hm hman
    simp [calculateAdjustedInertia, hm, hman]

/-- Concrete instantiation of `c2_neutral_inertia_adds_hardware_terms` on
the neutral movable-mass state. -/
theorem c2_neutral_inertia_witness :
    calculateAdjustedInertia pOne c2State =
      { c2State.inertia with
          m00 := c2State.inertia.m00 + c2State.mass_inertia.m00,
          m11 := c2State.inertia.m11 + c2State.mass_inertia.m11,
          m22 := c2State.inertia.m22 + 4 * c2State.mass_inertia.m22 } :=
  (c2_neutral_inertia_adds_hardware_terms pOne c2State).1 rfl rfl rfl rfl rfl

/-- State for the C3 counterexample: manipulator variant active, total
vehicle mass 3 (base mass 1 plus two unit payloads), both grippers at
`(3, 0, 0)`. -/
noncomputable def c3State : CtrlState ℝ :=
  { baseState with
      enable_manipulator_control := true
      uav_mass := 3
      gripperLeft_mv := ⟨3, 0, 0⟩
      gripperRight_mv := ⟨3, 0, 0⟩ }

/-- C3 counterexample: the computed center of mass divides by the total
vehicle mass, not by twice the payload mass, so it differs from the plain
average `(gripperLeft + gripperRight) / 2`: here the code yields
`(2, 0, 0)` while the claimed average is `(3, 0, 0)`. -/
theorem c3_manipulator_com_counterexample :
    c3State.enable_manipulator_control = true ∧
    (calculateCenterOfMass pOne c3State).ro_cm ≠
      (c3State.gripperLeft_mv.add c3State.gripperRight_mv).divScalar 2 := by
  refine ⟨rfl, fun h => ?_⟩
  have hx := congrArg Vec3.x h
  simp [calculateCenterOfMass, c3State, baseState, pOne,
    Vec3.add, Vec3.smul, Vec3.divScalar] at hx
  norm_num at hx

/-- C3 (amended): in the manipulator variant the center-of-mass offset is
the payload-weighted gripper sum divided by the *total* vehicle mass,
i.e. the midpoint `(gripperLeft + gripperRight) / 2` scaled by
`2·PAYLOAD_MASS / uav_mass`; it equals the plain midpoint only when the
total mass equals twice the payload mass. -/
theorem c3_manipulator_com_total_mass (p : Params ℝ) (s : CtrlState ℝ)
    (h1 : s.enable_mass_control = false)
    (h2 : s.enable_manipulator_control = true) :
    (calculateCenterOfMass p s).ro_cm =
      Vec3.smul (2 * p.PAYLOAD_MASS / s.uav_mass)
        ((s.gripperLeft_mv.add s.gripperRight_mv).divScalar 2) := by
  simp only [calculateCenterOfMass, h1, h2, Bool.false_eq_true, if_false, if_true]
  simp only [Vec3.add, Vec3.smul, Vec3.divScalar, Vec3.mk.injEq]
  refine ⟨?_, ?_, ?_⟩ <;> ring

/-- Concrete instantiation of `c3_manipulator_com_total_mass`. -/
theorem c3_manipulator_com_witness :
    (calculateCenterOfMass pOne c3State).ro_cm =
      Vec3.smul (2 * pOne.PAYLOAD_MASS / c3State.uav_mass)
        ((c3State.gripperLeft_mv.add c3State.gripperRight_mv).divScalar 2) :=
  c3_manipulator_com_total_mass pOne c3State rfl rfl

/-- C4 counterexample: the angular-velocity error `(0, NaN, 0)` is not
finite in every component, yet the guard does not trip (no abort), because
the code inspects only component 0. -/
theorem c4_nan_guard_counterexample :
    (FVec3.mk (.finite 0) .nan (.finite 0)).y.isFinite = false ∧
    eOmegaGuardTrips (FVec3.mk (.finite 0) .nan (.finite 0)) = false := by
  exact ⟨rfl, rfl⟩

/-- C4 (amended): the attitude-tracking cycle aborts exactly when
component 0 of the angular-velocity error is NaN; NaN in the other
components and infinities anywhere pass undetected, and when every
component is finite no abort occurs. -/
theorem c4_nan_guard_first_component_only (e : FVec3) :
    (eOmegaGuardTrips e = true ↔ e.x.isNaN = true) ∧
    (e.x.isFinite = true → eOmegaGuardTrips e = false) ∧
    (e.x = .posInf ∨ e.x = .negInf → eOmegaGuardTrips e = false) := by
  refine ⟨Iff.rfl, ?_, ?_⟩
  · intro hf
    unfold eOmegaGuardTrips
    cases hx : e.x
    · rfl
    · rfl
    · rfl
    · rw [hx] at hf
      simp [FVal.isFinite] at hf
  · intro hinf
    unfold eOmegaGuardTrips
    rcases hinf with h | h
    · rw [h]
      rfl
    · rw [h]
      rfl

/-- Concrete instantiation of `c4_nan_guard_first_component_only`: a fully
finite error vector does not trip the guard. -/
theorem c4_nan_guard_witness :
    eOmegaGuardTrips (FVec3.mk (.finite 1) (.finite 2) (.finite 3)) = false :=
  (c4_nan_guard_first_component_only
    (FVec3.mk (.finite 1) (.finite 2) (.finite 3))).2.1 rfl

theorem abs_sgn_le_one (x : K) : |sgn x| ≤ 1 := by
  unfold sgn
  split_ifs <;> simp

theorem abs_saturation_le (x wmax : K) (hw : 0 ≤ wmax) :
    |saturation x (-wmax) wmax| ≤ wmax := by
  unfold saturation
  split_ifs with hgt hlt
  · rw [abs_of_nonneg hw]
  · rw [abs_neg, abs_of_nonneg hw]
  · exact abs_le.mpr ⟨not_lt.mp hlt, not_lt.mp hgt⟩

/-- A transform matrix whose first column distributes thrust equally
(`1/4` each), as in the C5 claim; the remaining columns are zero. -/
noncomputable def symTransform : Mat4 ℝ :=
  ⟨1/4, 0, 0, 0, 1/4, 0, 0, 0, 1/4, 0, 0, 0, 1/4, 0, 0, 0⟩

/-- C5 counterexample: at thrust `F = 16` with motor constant 1 and rotor
bound 1, the allocator saturates: the first rotor command is 1, not the
claimed `sqrt(F / (4 k)) = 2`. -/
theorem c5_rotor_sqrt_counterexample :
    (calculateRotorVelocities Real.sqrt 1 1 ⟨16, 0, 0, 0⟩ symTransform).a ≠
      Real.sqrt (16 / (4 * 1)) := by
  have h4 : Real.sqrt 4 = 2 := by
    rw [show (4:ℝ) = 2^2 by norm_num]
    exact Real.sqrt_sq (by norm_num)
  have lhs : (calculateRotorVelocities Real.sqrt 1 1 ⟨16, 0, 0, 0⟩ symTransform).a = 1 := by
    simp only [calculateRotorVelocities, symTransform, Mat4.mulVec]
    norm_num
    rw [h4]
    norm_num [sgn, saturation]
  rw [lhs, show (16:ℝ) / (4 * 1) = 4 by norm_num, h4]
  norm_num

/-- C5 (amended): for every thrust `F > 0`, motor constant `k > 0` and
rotor bound `wmax > 0`, allocation of `[F; 0; 0; 0]` under a transform
whose first column is `1/4` in every row yields four equal positive rotor
commands, each the saturation of `sqrt(F / (4 k))` to `[-wmax, wmax]`;
the command equals `sqrt(F / (4 k))` itself exactly when that value does
not exceed the bound. -/
theorem c5_equal_rotor_speeds (F k wmax : ℝ) (T : Mat4 ℝ)
    (hF : 0 < F) (hk : 0 < k) (hw : 0 < wmax)
    (h0 : T.m00 = 1/4) (h1 : T.m10 = 1/4) (h2 : T.m20 = 1/4) (h3 : T.m30 = 1/4) :
    calculateRotorVelocities Real.sqrt k wmax ⟨F, 0, 0, 0⟩ T =
      ⟨saturation (Real.sqrt (F / (4 * k))) (-wmax) wmax,
       saturation (Real.sqrt (F / (4 * k))) (-wmax) wmax,
       saturation (Real.sqrt (F / (4 * k))) (-wmax) wmax,
       saturation (Real.sqrt (F / (4 * k))) (-wmax) wmax⟩ ∧
    0 < saturation (Real.sqrt (F / (4 * k))) (-wmax) wmax ∧
    (Real.sqrt (F / (4 * k)) ≤ wmax →
      saturation (Real.sqrt (F / (4 * k))) (-wmax) wmax = Real.sqrt (F / (4 * k))) := by
  have hsq : 0 < Real.sqrt (F / (4 * k)) := Real.sqrt_pos.mpr (by positivity)
  refine ⟨?_, ?_, ?_⟩
  · simp only [calculateRotorVelocities, Mat4.mulVec, h0, h1, h2, h3,
      mul_zero, zero_mul, add_zero]
    have hpos : (0:ℝ) < 1/4 * F := by positivity
    have hsgn : sgn (1/4 * F) = 1 := by
      unfold sgn
      rw [if_pos hpos]
    have habs : |1/4 * F| = 1/4 * F := abs_of_pos hpos
    have harg : 1/4 * F / k = F / (4 * k) := by ring
    rw [hsgn, habs, harg]
    simp
  · unfold saturation
    split_ifs with hgt hlt
    · exact hw
    · linarith
    · exact hsq
  · intro hle
    unfold saturation
    rw [if_neg (not_lt.mpr hle), if_neg (not_lt.mpr (by linarith))]

/-- Concrete instantiation of `c5_equal_rotor_speeds` at `F = 4`,
`k = 1`, `wmax = 10`. -/
theorem c5_equal_rotor_speeds_witness :
    calculateRotorVelocities Real.sqrt 1 10 ⟨4, 0, 0, 0⟩ symTransform =
      ⟨saturation (Real.sqrt (4 / (4 * 1))) (-10) 10,
       saturation (Real.sqrt (4 / (4 * 1))) (-10) 10,
       saturation (Real.sqrt (4 / (4 * 1))) (-10) 10,
       saturation (Real.sqrt (4 / (4 * 1))) (-10) 10⟩ :=
  (c5_equal_rotor_speeds 4 1 10 symTransform (by norm_num) (by norm_num)
    (by norm_num) rfl rfl rfl rfl).1

/-- C6: for every thrust-moment vector and every transform matrix, each of
the four rotor commands lies in `[-wmax, wmax]`: the final sign
reapplication after saturation never escapes the bound (assuming the
configured rotor bound is nonnegative). -/
theorem c6_rotor_commands_bounded (k wmax : ℝ) (tm : Vec4 ℝ) (T : Mat4 ℝ)
    (hw : 0 ≤ wmax) :
    |(calculateRotorVelocities Real.sqrt k wmax tm T).a| ≤ wmax ∧
    |(calculateRotorVelocities Real.sqrt k wmax tm T).b| ≤ wmax ∧
    |(calculateRotorVelocities Real.sqrt k wmax tm T).c| ≤ wmax ∧
    |(calculateRotorVelocities Real.sqrt k wmax tm T).d| ≤ wmax := by
  have key : ∀ x w : ℝ, |sgn x * saturation w (-wmax) wmax| ≤ wmax := by
    intro x w
    rw [abs_mul]
    calc |sgn x| * |saturation w (-wmax) wmax|
        ≤ 1 * wmax :=
          mul_le_mul (abs_sgn_le_one x) (abs_saturation_le w wmax hw)
            (abs_nonneg _) zero_le_one
      _ = wmax := one_mul wmax
  exact ⟨key _ _, key _ _, key _ _, key _ _⟩

/-- Concrete instantiation of `c6_rotor_commands_bounded`. -/
theorem c6_rotor_commands_bounded_witness :
    |(calculateRotorVelocities Real.sqrt 1 1 ⟨9, 5, 5, 5⟩ EYE4).a| ≤ 1 :=
  (c6_rotor_commands_bounded 1 1 ⟨9, 5, 5, 5⟩ EYE4 (by norm_num)).1

/-- C10: with a center-of-mass actuation variant active the rotor commands
go through the yaw-only transform `THRUST_TRANSFORM_FULL * EYE4`, so they
do not depend on the roll and pitch components of the control moment: two
moments agreeing in the yaw component (with the same thrust) produce
identical rotor commands. -/
theorem c10_yaw_allocation_ignores_roll_pitch (sqrtFn : ℝ → ℝ) (p : Params ℝ)
    (TF : Mat4 ℝ) (s : CtrlState ℝ) (f : ℝ) (Mu Mv : Vec3 ℝ)
    (hvar : s.enable_mass_control = true ∨ s.enable_manipulator_control = true)
    (hz : Mu.z = Mv.z) :
    publishControlRotor sqrtFn p TF s f Mu = publishControlRotor sqrtFn p TF s f Mv := by
  have hcond : (s.enable_mass_control || s.enable_manipulator_control) = true := by
    rcases hvar with h | h <;> simp [h]
  have hprod : (TF.mul EYE4).mulVec ⟨f, Mu.x, Mu.y, Mu.z⟩ =
      (TF.mul EYE4).mulVec ⟨f, Mv.x, Mv.y, Mv.z⟩ := by
    simp only [Mat4.mul, Mat4.mulVec, EYE4, Vec4.mk.injEq]
    refine ⟨?_, ?_, ?_, ?_⟩ <;> (rw [hz]; ring)
  simp only [publishControlRotor, hcond, if_true]
  unfold calculateRotorVelocities
  rw [hprod]

/-- Concrete instantiation of `c10_yaw_allocation_ignores_roll_pitch`:
with the movable-mass variant active, changing only the roll and pitch
moments leaves the rotor commands unchanged. -/
theorem c10_yaw_allocation_witness :
    publishControlRotor Real.sqrt pOne EYE4
        { baseState with enable_mass_control := true } 1 ⟨1, 2, 3⟩ =
      publishControlRotor Real.sqrt pOne EYE4
        { baseState with enable_mass_control := true } 1 ⟨4, 5, 3⟩ :=
  c10_yaw_allocation_ignores_roll_pitch Real.sqrt pOne EYE4
    { baseState with enable_mass_control := true } 1 ⟨1, 2, 3⟩ ⟨4, 5, 3⟩
    (Or.inl rfl) rfl

end UavGeom
